import Mathlib

/-!
# PDR Execution Dashboard — verification of the filtering-and-aggregation pipeline

Shallow embedding of the two Streamlit dashboards (`dashboard.py`, `dashboard2.py`)
of the PDR_Execution_Dashboard repository.  A project table is a list of typed
rows (one per CSV record); the sidebar filter, the KPI aggregates, the critical
project shortlist and the CSV export are embedded as pure Lean functions that
follow the pandas/numpy semantics of the corresponding source lines.
-/

namespace PDR

/-- One row of the project table `PDR_Marrakech_Safi_Projects.csv`
(columns per the header used by both dashboards).  `Budget_DH` and
`Taux_Avancement` are whole numbers in the data; they are embedded as `Int`. -/
structure Row where
  Province : String
  Secteur : String
  Intitule_Projet : String
  Budget_DH : Int
  Statut : String
  Taux_Avancement : Int
deriving DecidableEq, Repr

/-- `df["Province"].isin(selected_province) & df["Secteur"].isin(selected_sector)`:
the per-row inclusion test of the filter (dashboard.py lines 45-48,
dashboard2.py lines 36-39).  `isin` is membership in the selected list. -/
def rowPred (ps ss : List String) (r : Row) : Bool :=
  decide (r.Province ∈ ps) && decide (r.Secteur ∈ ss)

/-- `df_filtered = df[df["Province"].isin(...) & df["Secteur"].isin(...)]`
(dashboard.py lines 45-48, dashboard2.py lines 36-39): boolean-mask selection
keeps exactly the rows passing the mask, in their original order. -/
def df_filtered (df : List Row) (ps ss : List String) : List Row :=
  df.filter (rowPred ps ss)

/-- `df["Province"].unique()` (dashboard.py line 38): the distinct observed
provinces, in order of first appearance. -/
def uniqueProvinces (df : List Row) : List String :=
  (df.map Row.Province).dedup

/-- `df["Secteur"].unique()` (dashboard.py line 41). -/
def uniqueSecteurs (df : List Row) : List String :=
  (df.map Row.Secteur).dedup

/-- `df_filtered["Budget_DH"].sum()` (dashboard.py line 79,
dashboard2.py line 47: `total_budget`). -/
def total_budget (s : List Row) : Int :=
  (s.map Row.Budget_DH).sum

/-- `len(df_filtered)` (dashboard.py line 80, dashboard2.py line 48). -/
def total_projects (s : List Row) : Nat :=
  s.length

/-- `len(df_filtered[df_filtered["Statut"] == "En Retard"])` (dashboard.py line 81). -/
def late_projects (s : List Row) : Nat :=
  (s.filter (fun r => r.Statut == "En Retard")).length

/-- `df_filtered["Taux_Avancement"].mean()` (dashboard.py line 82,
dashboard2.py line 49).  pandas' `Series.mean` of an empty series is the IEEE
float NaN; NaN is embedded as `none`, a nonempty mean as the exact rational. -/
def avg_progress (s : List Row) : Option ℚ :=
  if s.length = 0 then none
  else some (((s.map (fun r => (r.Taux_Avancement : ℚ))).sum) / s.length)

/-!
## Model of `df.sort_values("Budget_DH", ascending=False)`

`DataFrame.sort_values` with a single key and the default `kind="quicksort"`
routes through `pandas.core.sorting.nargsort`, which for `ascending=False`
reverses the values, calls `ndarray.argsort(kind="quicksort")` (numpy's scalar
introsort, `npy_aquicksort` in `npysort/quicksort.c.src`), indexes the reversed
positions and reverses the result.  The introsort is transcribed below:
median-of-three Hoare partition for spans longer than `SMALL_QUICKSORT = 15`
elements, insertion sort for short spans, and a heapsort fallback once the
depth budget `2 * msb(n)` is exhausted.  Loops carry explicit fuel; every
concrete evaluation in this file stays far below the fuel and depth bounds.
-/

/-- numpy `SMALL_QUICKSORT`: spans of more than this many elements are
partitioned, shorter spans are insertion sorted. -/
def smallQuicksort : Nat := 15

/-- `v[ts[i]]`: the sort key at position `i` of the index array `ts`. -/
def vat (v : Array Int) (ts : Array Nat) (i : Nat) : Int :=
  v.getD (ts.getD i 0) 0

/-- `INTP_SWAP(*a, *b)` on the index array. -/
def tswap (ts : Array Nat) (i j : Nat) : Array Nat :=
  let a := ts.getD i 0
  let b := ts.getD j 0
  (ts.setD i b).setD j a

/-- `do ++pi; while (v[*pi] < vp)`: first position strictly after `i` whose key
is not below the pivot (bounded by the array size via the fuel; the bound is
never hit on states reachable from a well-formed partition, where the pivot
itself stops the scan). -/
def scanUp (v : Array Int) (ts : Array Nat) (vp : Int) : Nat → Nat → Nat
  | 0, i => i + 1
  | fuel + 1, i =>
    if i + 2 ≤ ts.size ∧ vat v ts (i + 1) < vp then scanUp v ts vp fuel (i + 1)
    else i + 1

/-- `do --pj; while (vp < v[*pj])`: first position strictly before `j` whose key
is not above the pivot (the scan never passes the leftmost position of the
span, whose key is at most the pivot after median-of-three). -/
def scanDown (v : Array Int) (ts : Array Nat) (vp : Int) : Nat → Nat → Nat
  | 0, j => j - 1
  | fuel + 1, j =>
    if 1 < j ∧ vp < vat v ts (j - 1) then scanDown v ts vp fuel (j - 1)
    else j - 1

/-- The swap loop of numpy's Hoare partition
(`for (;;) { do ++pi ...; do --pj ...; if (pi >= pj) break; INTP_SWAP; }`).
Returns the updated index array and the crossing position `pi`. -/
def partLoop (v : Array Int) (vp : Int) : Nat → Array Nat → Nat → Nat → Array Nat × Nat
  | 0, ts, pi, _ => (ts, pi)
  | fuel + 1, ts, pi, pj =>
    let pi' := scanUp v ts vp ts.size pi
    let pj' := scanDown v ts vp pj pj
    if pj' ≤ pi' then (ts, pi')
    else partLoop v vp fuel (tswap ts pi' pj') pi' pj'

/-- Inner shift loop of numpy's insertion sort
(`while (pj > pl && LT(vp, v[*pk])) { *pj-- = *pk--; }; *pj = vi;`), the
fuel starting at the initial `pj`, which bounds the number of shifts. -/
def insertLoop (v : Array Int) (vi : Nat) (pl : Nat) : Nat → Nat → Array Nat → Array Nat
  | 0, pj, ts => ts.setD pj vi
  | fuel + 1, pj, ts =>
    if pl < pj ∧ v.getD vi 0 < vat v ts (pj - 1) then
      insertLoop v vi pl fuel (pj - 1) (ts.setD pj (ts.getD (pj - 1) 0))
    else ts.setD pj vi

/-- Outer loop of numpy's insertion sort over the span `[pl, pr]`
(`for (pi = pl + 1; pi <= pr; ++pi)`). -/
def ainsertionGo (v : Array Int) (pl pr : Nat) : Nat → Nat → Array Nat → Array Nat
  | 0, _, ts => ts
  | fuel + 1, pi, ts =>
    if pi ≤ pr then
      ainsertionGo v pl pr fuel (pi + 1) (insertLoop v (ts.getD pi 0) pl pi pi ts)
    else ts

/-- numpy's indirect insertion sort on the span `[pl, pr]` of the index array. -/
def ainsertion (v : Array Int) (ts : Array Nat) (pl pr : Nat) : Array Nat :=
  ainsertionGo v pl pr (pr + 2 - pl) (pl + 1) ts

/-- Sift-down loop of numpy's indirect heapsort (`npy_aheapsort`), 1-based
positions inside the slice starting at `pl`: `a[k]` is `ts[pl + k - 1]`. -/
def heapSift (v : Array Int) (pl n : Nat) (tmp : Nat) : Nat → Nat → Nat → Array Nat → Array Nat
  | 0, i, _, ts => ts.setD (pl + i - 1) tmp
  | fuel + 1, i, j, ts =>
    if j ≤ n then
      let j := if j < n ∧ vat v ts (pl + j - 1) < vat v ts (pl + j) then j + 1 else j
      if v.getD tmp 0 < vat v ts (pl + j - 1) then
        heapSift v pl n tmp fuel j (2 * j) (ts.setD (pl + i - 1) (ts.getD (pl + j - 1) 0))
      else ts.setD (pl + i - 1) tmp
    else ts.setD (pl + i - 1) tmp

/-- Heap construction phase (`for (l = n>>1; l > 0; --l)`). -/
def heapBuild (v : Array Int) (pl n : Nat) : Nat → Array Nat → Array Nat
  | 0, ts => ts
  | l + 1, ts =>
    heapBuild v pl n l (heapSift v pl n (ts.getD (pl + l) 0) (n + 1) (l + 1) (2 * (l + 1)) ts)

/-- Extraction phase (`for (; n > 1;) { tmp = a[n]; a[n] = a[1]; n -= 1; sift }`). -/
def heapExtract (v : Array Int) (pl : Nat) : Nat → Array Nat → Array Nat
  | 0, ts => ts
  | 1, ts => ts
  | m + 2, ts =>
    let tmp := ts.getD (pl + m + 1) 0
    let ts := ts.setD (pl + m + 1) (ts.getD pl 0)
    heapExtract v pl (m + 1) (heapSift v pl (m + 1) tmp (m + 3) 1 2 ts)

/-- numpy's indirect heapsort of the `n`-element slice starting at `pl`. -/
def aheapsort (v : Array Int) (ts : Array Nat) (pl n : Nat) : Array Nat :=
  heapExtract v pl n (heapBuild v pl n (n / 2) ts)

/-- Main loop of numpy's indirect introsort (`npy_aquicksort`): an explicit
stack of pending spans, partitioning long spans (pushing the larger side),
insertion-sorting short ones, falling back to heapsort past the depth budget. -/
def aqLoop (v : Array Int) : Nat → Nat → Nat → Int → List (Nat × Nat) → Array Nat → Array Nat
  | 0, _, _, _, _, ts => ts
  | fuel + 1, pl, pr, depth, stack, ts =>
    if smallQuicksort < pr - pl then
      if depth < 0 then
        let ts := aheapsort v ts pl (pr - pl + 1)
        match stack with
        | [] => ts
        | (l, r) :: st => aqLoop v fuel l r depth st ts
      else
        let pm := pl + (pr - pl) / 2
        let ts := if vat v ts pm < vat v ts pl then tswap ts pm pl else ts
        let ts := if vat v ts pr < vat v ts pm then tswap ts pr pm else ts
        let ts := if vat v ts pm < vat v ts pl then tswap ts pm pl else ts
        let vp := vat v ts pm
        let ts := tswap ts pm (pr - 1)
        let (ts, pi) := partLoop v vp (ts.size + 1) ts pl (pr - 1)
        let ts := tswap ts pi (pr - 1)
        if pi - pl < pr - pi then
          aqLoop v fuel pl (pi - 1) (depth - 1) ((pi + 1, pr) :: stack) ts
        else
          aqLoop v fuel (pi + 1) pr (depth - 1) ((pl, pi - 1) :: stack) ts
    else
      let ts := ainsertion v ts pl pr
      match stack with
      | [] => ts
      | (l, r) :: st => aqLoop v fuel l r depth st ts

/-- `npy_get_msb`: index of the most significant set bit (0 for 0 and 1). -/
def npyGetMsbAux : Nat → Nat → Nat
  | 0, _ => 0
  | fuel + 1, n => if n ≤ 1 then 0 else npyGetMsbAux fuel (n / 2) + 1

/-- `npy_get_msb(n)`, the introsort depth budget being twice this. -/
def npyGetMsb (n : Nat) : Nat := npyGetMsbAux n n

/-- `ndarray.argsort(kind="quicksort")`: ascending indirect introsort of the
given keys, returning the permutation as a list of source positions. -/
def np_argsort (vals : List Int) : List Nat :=
  let v : Array Int := vals.toArray
  let n := v.size
  let ts : Array Nat := (List.range n).toArray
  (aqLoop v (n * n + 16) 0 (n - 1) (2 * npyGetMsb n) [] ts).toList

/-- `pandas.core.sorting.nargsort(values, kind="quicksort", ascending=False)`
for keys with no NaN (integer keys): reverse the values, argsort ascending,
index the reversed positions, reverse the result. -/
def nargsort_desc (vals : List Int) : List Nat :=
  let n := vals.length
  let p := np_argsort vals.reverse
  let idxrev := (List.range n).reverse
  (p.map (fun k => idxrev.getD k 0)).reverse

/-- `subset.sort_values("Budget_DH", ascending=False)`: take the rows in the
order given by `nargsort` on the budget column. -/
def sort_values_budget_desc (s : List Row) : List Row :=
  (nargsort_desc (s.map Row.Budget_DH)).filterMap (fun i => s[i]?)

/-- The criticality mask of dashboard.py lines 114-115:
`df_filtered["Statut"].isin(["Suspendu", "En Retard"]) &
(df_filtered["Budget_DH"] > 5000000)`. -/
def isCritical (r : Row) : Bool :=
  decide (r.Statut ∈ ["Suspendu", "En Retard"]) && decide (r.Budget_DH > 5000000)

/-- `critical_projects` (dashboard.py lines 113-116): criticality mask, then
`sort_values("Budget_DH", ascending=False)`, then `head(5)`. -/
def critical_projects (s : List Row) : List Row :=
  (sort_values_budget_desc (s.filter isCritical)).take 5

/-!
## Aggregates and the dashboard view model

All charts and metrics of both dashboards are computed from `df_filtered`
(dashboard.py lines 79-160, dashboard2.py lines 47-89).  The view model below
records, for each user-visible output, which function of which frame produces
it, following the source line by line.
-/

/-- `df_filtered.groupby("Province")["Budget_DH"].sum()` (dashboard.py
line 127, dashboard2.py line 65): pandas `groupby` with the default
`sort=True` returns one group per distinct key, keys in ascending order. -/
def budget_by_province (s : List Row) : List (String × Int) :=
  (((s.map Row.Province).dedup).mergeSort (fun a b => a ≤ b)).map
    (fun p => (p, total_budget (s.filter (fun r => r.Province == p))))

/-- The status counts behind `px.pie(df_filtered, names="Statut")`
(dashboard.py lines 151-156, dashboard2.py lines 79-85): one slice per
distinct status, in order of first appearance, counting its rows. -/
def statut_distribution (s : List Row) : List (String × Nat) :=
  ((s.map Row.Statut).dedup).map
    (fun st => (st, (s.filter (fun r => r.Statut == st)).length))

/-- Everything the two dashboards render once the filters are applied: the
frame each output is computed from is `df_filtered`, never the raw table. -/
structure ViewModel where
  totalBudget : Int          -- dashboard.py line 79 / dashboard2.py line 47
  nProjects : Nat            -- dashboard.py line 80 / dashboard2.py line 48
  nLate : Nat                -- dashboard.py line 81
  avgTaux : Option ℚ         -- dashboard.py line 82 / dashboard2.py line 49
  mapRows : List Row         -- dashboard.py lines 92-104 (scatter map data)
  criticals : List Row       -- dashboard.py lines 113-116
  provinceBudgets : List (String × Int)  -- dashboard.py lines 126-131
  boxRows : List Row         -- dashboard.py lines 137-143 (box plot data)
  statutSlices : List (String × Nat)     -- dashboard.py lines 151-156
  tableRows : List Row       -- dashboard.py line 160 (st.dataframe)
deriving Repr

/-- The full recomputation triggered by a filter interaction: apply the filter
(dashboard.py lines 45-48), then every aggregate and chart input over the
filtered frame. -/
def dashboard_view (df : List Row) (ps ss : List String) : ViewModel :=
  let f := df_filtered df ps ss
  { totalBudget := total_budget f
    nProjects := total_projects f
    nLate := late_projects f
    avgTaux := avg_progress f
    mapRows := f
    criticals := critical_projects f
    provinceBudgets := budget_by_province f
    boxRows := f
    statutSlices := statut_distribution f
    tableRows := f }

/-!
## The user-visible average-progress metric

Dashboard.py line 82 renders `f"{df_filtered['Taux_Avancement'].mean():.1f}%"`
(dashboard2.py line 54 likewise).  Python's `format(x, ".1f")` on the float
NaN produced by the empty mean yields the text `"nan"`; on a number it yields
a fixed-point decimal with one digit, rounding half to even (the model rounds
the exact rational; the claims below only exercise the NaN case and
NaN-freeness, not the last displayed digit).
-/

/-- Round a rational to the nearest integer, half to even. -/
def roundHalfEven (x : ℚ) : ℤ :=
  let f : ℤ := ⌊x⌋
  if x - f < 1 / 2 then f
  else if 1 / 2 < x - f then f + 1
  else if f % 2 = 0 then f else f + 1

/-- Python `format(x, ".1f")` on the exact rational: one decimal digit. -/
def pyFormat1f (x : ℚ) : String :=
  let t : ℤ := roundHalfEven (x * 10)
  let sign := if t < 0 then "-" else ""
  sign ++ toString (t.natAbs / 10) ++ "." ++ toString (t.natAbs % 10)

/-- The text shown by the average-progress metric (dashboard.py line 82,
dashboard2.py line 54): `f"{mean:.1f}%"`, where the mean of an empty filtered
frame is the float NaN, which Python formats as `"nan"`. -/
def avg_progress_text (s : List Row) : String :=
  match avg_progress s with
  | none => "nan%"
  | some q => pyFormat1f q ++ "%"

/-!
## The Loader (dashboard.py lines 10-31, dashboard2.py lines 10-19)

The file-system effect of `pd.read_csv` is modelled by the three outcomes the
spec's error design distinguishes: the file is present and parses, the file is
absent (Python raises `FileNotFoundError`), or any other read/parse failure
(some other exception).  dashboard.py catches exactly `FileNotFoundError`
inside `load_data` and returns `None`; the caller halts rendering with an
error message when the result is `None` (`st.error` + `st.stop`).
dashboard2.py lets `load_data` raise and catches `FileNotFoundError` at the
call site.  In both files any other exception is uncaught and aborts the
session.
-/

/-- What reading the fixed CSV path can do, as seen by the Python caller. -/
inductive Exn where
  | fileNotFound
  | otherError (msg : String)
deriving DecidableEq, Repr

/-- File-system state for the fixed input path. -/
inductive Disk where
  | present (t : List Row)
  | absent
  | unreadable (msg : String)
deriving Repr

/-- Result of a Python expression: a value, or a raised exception. -/
inductive PyResult (α : Type) where
  | ret (a : α)
  | raised (e : Exn)
deriving Repr

/-- `pd.read_csv("PDR_Marrakech_Safi_Projects.csv", sep=";")`: the table on
success, `FileNotFoundError` if the path is absent, some other exception on
any other read/parse failure. -/
def pd_read_csv_effect : Disk → PyResult (List Row)
  | .present t => .ret t
  | .absent => .raised .fileNotFound
  | .unreadable m => .raised (.otherError m)

/-- dashboard.py `load_data` (lines 10-25): `try: df = pd.read_csv(...); ...;
return df; except FileNotFoundError: return None`.  (The geo-enrichment of
lines 19-21 adds the `lat`/`lon` columns and is display-only; it does not
change the error shape modelled here.)  Only `FileNotFoundError` is caught. -/
def load_data1 (d : Disk) : PyResult (Option (List Row)) :=
  match pd_read_csv_effect d with
  | .ret t => .ret (some t)
  | .raised .fileNotFound => .ret none
  | .raised e => .raised e

/-- dashboard2.py `load_data` (lines 10-13): no handler inside; the read's
outcome propagates to the caller. -/
def load_data2 (d : Disk) : PyResult (List Row) :=
  pd_read_csv_effect d

/-- How a session ends: the dashboard renders over a table, rendering halts
with a user-visible message, or the session aborts on an uncaught exception. -/
inductive Session where
  | rendered (t : List Row)
  | haltedWithMessage (msg : String)
  | aborted (e : Exn)
deriving Repr

/-- dashboard.py top level (lines 27-31): `df = load_data()`; if `df is None`
then `st.error(...)` and `st.stop()` (no further rendering); otherwise the
dashboard renders over the loaded table. -/
def session1 (d : Disk) : Session :=
  match load_data1 d with
  | .raised e => .aborted e
  | .ret none => .haltedWithMessage "⚠️ Veuillez générer le fichier CSV d'abord (Step 1)."
  | .ret (some t) => .rendered t

/-- dashboard2.py top level (lines 15-19): `try: df = load_data() except
FileNotFoundError: st.error(...); st.stop()`. -/
def session2 (d : Disk) : Session :=
  match load_data2 d with
  | .ret t => .rendered t
  | .raised .fileNotFound => .haltedWithMessage "⚠️ File not found! Please run the data generation script first."
  | .raised e => .aborted e

/-!
## CSV export and re-parse

`df_filtered.to_csv(index=False, sep=";").encode("utf-8-sig")` (dashboard.py
line 53) serializes the filtered frame: a header record, one record per row,
fields joined by `";"`, each record terminated by a newline, fields containing
the separator, the quote character or a line break quoted with doubled inner
quotes (`csv.QUOTE_MINIMAL`), and a UTF-8 BOM prepended by the `utf-8-sig`
encoding.  The reader models `pd.read_csv(..., sep=";")` (dashboard.py
line 13) on such texts: BOM stripping, record and field splitting with the
same quoting discipline (the model covers texts whose quoted fields contain
no line break — true of every text this file evaluates the reader on),
pandas' default NA-token substitution, and whole-column integer dtype
inference (the integer fragment of pandas' numeric inference; the source
table's numeric columns are whole numbers).  Per the round-trip claim, the
derived `lat`/`lon` columns are ignored: the six schema columns are
serialized and compared. -/

/-- The three-row scenario table of the spec (§8), with the code's French
status vocabulary. -/
def demoT : List Row :=
  [⟨"A", "X", "Route nationale", 6000000, "En Retard", 40⟩,
   ⟨"A", "Y", "Centre de santé", 1000000, "Achevé", 100⟩,
   ⟨"B", "X", "Barrage collinaire", 7000000, "Suspendu", 10⟩]

/-- Seventeen critical rows with one common budget: enough rows to push
numpy's introsort past its insertion-sort regime (`SMALL_QUICKSORT = 15`). -/
def demo17 : List Row :=
  (List.range 17).map (fun i => ⟨"A", "X", "t" ++ toString i, 6000000, "Suspendu", 0⟩)

/-- Two tables that differ outside the filter selection (used to witness that
the rendered view depends only on the filtered subset). -/
def tableW1 : List Row :=
  [⟨"A", "X", "Piste rurale", 2000000, "En Cours", 55⟩,
   ⟨"B", "X", "École communale", 3000000, "Achevé", 100⟩]

/-- Same first row as `tableW1`, different second row (filtered out by the
same selection). -/
def tableW2 : List Row :=
  [⟨"A", "X", "Piste rurale", 2000000, "En Cours", 55⟩,
   ⟨"C", "Z", "Port de pêche", 9000000, "Suspendu", 5⟩]

/-- `rowPred` is the conjunction of the two memberships. -/
theorem rowPred_eq_true {ps ss : List String} {r : Row} :
    rowPred ps ss r = true ↔ r.Province ∈ ps ∧ r.Secteur ∈ ss := by
  simp [rowPred]

/-- `total_budget` over a cons. -/
theorem total_budget_cons (r : Row) (s : List Row) :
    total_budget (r :: s) = r.Budget_DH + total_budget s := by
  simp [total_budget]

/-- **C1** Filter soundness and completeness: every row of
`df_filtered df ps ss` has its province in `ps` and sector in `ss`; every row
occurrence of `df` satisfying the predicate is kept with its exact
multiplicity (no duplication, no loss); and the result is a sublist of `df`,
so the original row order is preserved. -/
theorem C1_filter_sound_complete (df : List Row) (ps ss : List String) :
    (∀ r ∈ df_filtered df ps ss, r.Province ∈ ps ∧ r.Secteur ∈ ss)
    ∧ (∀ r : Row, r.Province ∈ ps → r.Secteur ∈ ss →
        (df_filtered df ps ss).count r = df.count r)
    ∧ (df_filtered df ps ss).Sublist df := by
  refine ⟨?_, ?_, List.filter_sublist df⟩
  · intro r hr
    exact rowPred_eq_true.1 (List.of_mem_filter hr)
  · intro r hp hs
    exact List.count_filter (rowPred_eq_true.2 ⟨hp, hs⟩)

/-- **C1 witness**: the scenario table with `P = {A}`, `S = {X, Y}` keeps the
delayed A-row exactly once, with province and sector selected. -/
theorem C1_filter_sound_complete_witness :
    (⟨"A", "X", "Route nationale", 6000000, "En Retard", 40⟩ : Row).Province ∈ ["A"]
    ∧ (⟨"A", "X", "Route nationale", 6000000, "En Retard", 40⟩ : Row).Secteur ∈ ["X", "Y"]
    ∧ (df_filtered demoT ["A"] ["X", "Y"]).count
        ⟨"A", "X", "Route nationale", 6000000, "En Retard", 40⟩
      = demoT.count ⟨"A", "X", "Route nationale", 6000000, "En Retard", 40⟩ :=
  ⟨by decide, by decide,
    (C1_filter_sound_complete demoT ["A"] ["X", "Y"]).2.1 _ (by decide) (by decide)⟩

/-- **C4** Boundary behavior of the filter: selecting every observed province
and every observed sector returns the table unchanged, and an empty province
selection returns the empty table whatever the sector selection. -/
theorem C4_filter_boundary (df : List Row) (ss : List String) :
    df_filtered df (uniqueProvinces df) (uniqueSecteurs df) = df
    ∧ df_filtered df [] ss = [] := by
  constructor
  · refine List.filter_eq_self.2 (fun r hr => rowPred_eq_true.2 ⟨?_, ?_⟩)
    · exact List.mem_dedup.2 (List.mem_map_of_mem Row.Province hr)
    · exact List.mem_dedup.2 (List.mem_map_of_mem Row.Secteur hr)
  · refine List.filter_eq_nil_iff.2 (fun r _ => ?_)
    simp [rowPred]

/-- **C10** The filter is idempotent: applying the same selection twice gives
the same subset as applying it once. -/
theorem C10_filter_idempotent (df : List Row) (ps ss : List String) :
    df_filtered (df_filtered df ps ss) ps ss = df_filtered df ps ss := by
  unfold df_filtered
  rw [List.filter_filter]
  simp

/-- **C7** Monotonicity of the total budget under shrinking selections: with
non-negative budgets, a sub-selection of provinces and sectors can only lower
(or keep) the committed-budget KPI. -/
theorem C7_total_budget_monotone (df : List Row) (ps ss ps' ss' : List String)
    (hb : ∀ r ∈ df, 0 ≤ r.Budget_DH) (hp : ps' ⊆ ps) (hs : ss' ⊆ ss) :
    total_budget (df_filtered df ps' ss') ≤ total_budget (df_filtered df ps ss) := by
  induction df with
  | nil => simp [df_filtered, total_budget]
  | cons r t ih =>
    have ht : ∀ x ∈ t, 0 ≤ x.Budget_DH := fun x hx => hb x (List.mem_cons_of_mem _ hx)
    have ihh := ih ht
    by_cases h' : rowPred ps' ss' r = true
    · have h : rowPred ps ss r = true := by
        rw [rowPred_eq_true] at h' ⊢
        exact ⟨hp h'.1, hs h'.2⟩
      simp only [df_filtered, List.filter_cons, h', h, if_true, total_budget_cons]
      exact add_le_add_left ihh _
    · by_cases h : rowPred ps ss r = true
      · simp only [df_filtered, List.filter_cons, h', h, if_true, if_false,
          Bool.false_eq_true, total_budget_cons]
        have h0 : 0 ≤ r.Budget_DH := hb r (List.mem_cons_self r t)
        calc total_budget (t.filter (rowPred ps' ss')) ≤ total_budget (t.filter (rowPred ps ss)) := ihh
          _ ≤ r.Budget_DH + total_budget (t.filter (rowPred ps ss)) := by omega
      · simpa only [df_filtered, List.filter_cons, h', h, Bool.false_eq_true,
          if_false] using ihh

/-- **C7 witness**: on the scenario table, shrinking `{A, B} × {X, Y}` to
`{A} × {X}` lowers the total from 14 MDH to 6 MDH. -/
theorem C7_total_budget_monotone_witness :
    (∀ r ∈ demoT, 0 ≤ r.Budget_DH) ∧ ["A"] ⊆ ["A", "B"] ∧ ["X"] ⊆ ["X", "Y"]
    ∧ total_budget (df_filtered demoT ["A"] ["X"])
        ≤ total_budget (df_filtered demoT ["A", "B"] ["X", "Y"]) :=
  ⟨by decide, by decide, by decide,
    C7_total_budget_monotone demoT ["A", "B"] ["X", "Y"] ["A"] ["X"]
      (by decide) (by decide) (by decide)⟩

/-- **C5** Invariants of every recomputation: the filtered subset is a sublist
of the loaded table (rows are neither fabricated nor mutated), and the entire
rendered view — every KPI, chart input, critical list and table — is a
function of the filtered subset alone: two loads and selections with the same
filtered subset render identically, so no aggregate reads the raw table. -/
theorem C5_filtered_subset_invariants :
    (∀ df ps ss, (df_filtered df ps ss).Sublist df)
    ∧ (∀ df df₂ ps ps₂ ss ss₂, df_filtered df ps ss = df_filtered df₂ ps₂ ss₂ →
        dashboard_view df ps ss = dashboard_view df₂ ps₂ ss₂) := by
  refine ⟨fun df ps ss => List.filter_sublist df, ?_⟩
  intro df df₂ ps ps₂ ss ss₂ h
  simp only [dashboard_view, h]

/-- **C5 witness**: two different loaded tables whose selections filter to the
same single row render the same view. -/
theorem C5_filtered_subset_invariants_witness :
    df_filtered tableW1 ["A"] ["X"] = df_filtered tableW2 ["A"] ["X"]
    ∧ dashboard_view tableW1 ["A"] ["X"] = dashboard_view tableW2 ["A"] ["X"] :=
  ⟨by decide, C5_filtered_subset_invariants.2 tableW1 tableW2 ["A"] ["A"] ["X"] ["X"] (by decide)⟩

/-- **C6** Loader error behavior: an absent input file yields the distinct
"not found" signal (dashboard 1: `None` from the `except FileNotFoundError`
branch; dashboard 2: the caught exception), recovered by halting rendering
with a clear message; any other read failure is uncaught and aborts the
session; a present, readable file renders the dashboard. -/
theorem C6_loader_error_behavior (t : List Row) (m : String) :
    session1 .absent
        = .haltedWithMessage "⚠️ Veuillez générer le fichier CSV d'abord (Step 1)."
    ∧ session2 .absent
        = .haltedWithMessage "⚠️ File not found! Please run the data generation script first."
    ∧ session1 (.unreadable m) = .aborted (.otherError m)
    ∧ session2 (.unreadable m) = .aborted (.otherError m)
    ∧ session1 (.present t) = .rendered t
    ∧ session2 (.present t) = .rendered t :=
  ⟨rfl, rfl, rfl, rfl, rfl, rfl⟩

/-- **C3** (code bug) The empty filtered subset's mean progress is pandas'
NaN (`none` in the model), and the user-visible metric of dashboard.py
line 82 renders it as `"nan%"` — the session does not crash, but the surface
shows an undefined numeric value instead of the defined "no data" result the
spec requires. -/
theorem C3_empty_mean_renders_nan :
    avg_progress (df_filtered demoT [] []) = none
    ∧ avg_progress_text (df_filtered demoT [] []) = "nan%" := by
  constructor <;> rfl

set_option maxRecDepth 4000 in
/-- **C2** (code bug) On seventeen equally-budgeted critical rows,
`critical_projects` — whose `sort_values("Budget_DH", ascending=False)` uses
pandas' default `kind="quicksort"` (numpy introsort) — returns the titles
`t0, t9, t15, t14, t13`: not the first five rows in original order that the
claimed stable tie-break requires.  One Hoare partition (triggered as soon as
more than 16 rows reach the sort) scrambles equal keys. -/
theorem C2_ties_not_stable :
    (critical_projects demo17).map Row.Intitule_Projet
        = ["t0", "t9", "t15", "t14", "t13"]
    ∧ (critical_projects demo17).map Row.Intitule_Projet
        ≠ ((demo17.filter isCritical).take 5).map Row.Intitule_Projet := by
  constructor <;> decide

/-!
## Lemmas: integer printing and parsing round trip
-/

end PDR
